import Mathlib

/-!
Shallow embedding of the uniswap-python client library (src/uniswap/) and
verification of its specification claims.

Modelling conventions:
* Python `int` is `ℤ`; Python machine-independent arbitrary precision matches.
* Python `float` expressions are modelled by exact rationals `ℚ`.  Every
  theorem or counterexample that touches such an expression is instantiated
  only at values where IEEE-754 double arithmetic is exact (small halves,
  integers), so the rational model agrees with the float computation there.
* `int(x)` (truncation toward zero) is `pythonInt`.
* Remote JSON-RPC interactions are an oracle: the `Client` record carries the
  response of every chain read, and computations run in the `Eff` monad which
  records the list of issued network calls next to an `Except` result, so
  "no remote call is made before failure" is an inspectable statement.
* Python exceptions are the `Err` type; `raise` is `throwE`.
-/

namespace Uniswap

/-- Python `int(x)` for a real-valued `x`: truncation toward zero. -/
def pythonInt (q : ℚ) : ℤ := if 0 ≤ q then ⌊q⌋ else ⌈q⌉

/-- Python `round(a / b)` for integers `a` and positive `b`: round half to
even (banker's rounding) of the exact quotient.  `util.nearest_tick` computes
`round(tick/tick_spacing)` on floats; for `|tick| ≤ 887272` and spacings
1, 10, 60, 200 the float quotient is exactly representable at every tie
(ties need `tick = k·b + b/2` with even `b`, whose quotient `k + 1/2` is a
dyadic rational) and is closer than 1/(2b) to a half-integer nowhere else,
so the float `round` agrees with this exact integer computation. -/
def pyRound (a b : ℤ) : ℤ :=
  let q := a.fdiv b
  let r := a.fmod b
  if 2 * r < b then q
  else if b < 2 * r then q + 1
  else if q % 2 = 0 then q else q + 1

/-- Python `AddressLike`: either a `str` or raw bytes (`bytes`/`Address`);
bytes are a list of byte values. -/
inductive AddrLike
  | str (s : String)
  | bytes (b : List ℕ)
deriving DecidableEq, Repr

/-- Python `==` between two `AddressLike` values: `str == str` and
`bytes == bytes` compare contents, mixed comparisons are `False`. -/
def pyEq (a b : AddrLike) : Bool :=
  match a, b with
  | .str s, .str t => s = t
  | .bytes x, .bytes y => x = y
  | _, _ => false

/-- constants.ETH_ADDRESS. -/
def ETH_ADDRESS : String := "0x0000000000000000000000000000000000000000"

/-- The `ETH_ADDRESS` constant as an `AddressLike` (a Python `str`). -/
def ethAddrLike : AddrLike := .str ETH_ADDRESS

/-- Errors: the Python exception classes raised by the library
(`web3.exceptions.NameNotFound`, builtin `ValueError`/`TypeError`/
`ZeroDivisionError`, and the library's own exception classes; the
`supports()` decorator and the not-yet-supported cases raise bare
`Exception`s, distinguished here by constructor). -/
inductive Err
  | nameNotFound
  | valueError
  | typeError
  | zeroDivision
  | runtimeError
  | invalidToken
  | invalidFeeTier (msg : String)
  | insufficientBalance (had needed : ℤ)
  | unsupportedVersion
  | customRouteNotSupported
  | feeOnTransferNotSupported
deriving DecidableEq, Repr

/-- Discriminator: did a computation fail with `InsufficientBalance`? -/
def Err.isInsufficientBalance : Err → Bool
  | .insufficientBalance _ _ => true
  | _ => false

/-- Hexadecimal digit value of a character, as accepted by Python's
`bytes.fromhex`. -/
def hexDigitVal (c : Char) : Option ℕ :=
  if '0' ≤ c ∧ c ≤ '9' then some (c.toNat - '0'.toNat)
  else if 'a' ≤ c ∧ c ≤ 'f' then some (c.toNat - 'a'.toNat + 10)
  else if 'A' ≤ c ∧ c ≤ 'F' then some (c.toNat - 'A'.toNat + 10)
  else none

/-- Python `bytes.fromhex` on a list of characters: consecutive pairs of hex
digits; an odd digit count or a non-hex digit raises `ValueError` (`none`).
(Python additionally ignores ASCII spaces between bytes; no input considered
in this development contains spaces.) -/
def hexBytes : List Char → Option (List ℕ)
  | [] => some []
  | [_] => none
  | c1 :: c2 :: rest => do
    let hi ← hexDigitVal c1
    let lo ← hexDigitVal c2
    let r ← hexBytes rest
    pure ((16 * hi + lo) :: r)

/-- util._str_to_addr: a `str` starting with `"0x"` is hex-decoded via
`bytes.fromhex(s[2:])` (no length check!); any other `str` raises
`NameNotFound`; non-`str` input is returned unchanged.
`s.startswith("0x")` is modelled as a take-2 comparison on the character
list, which is the same predicate. -/
def _str_to_addr (a : AddrLike) : Except Err (List ℕ) :=
  match a with
  | .str s =>
    if s.data.take 2 = ['0', 'x'] then
      match hexBytes (s.data.drop 2) with
      | some bs => .ok bs
      | none => .error .valueError
    else .error .nameNotFound
  | .bytes b => .ok b

/-- Lowercase hex character for a nibble. -/
def hexChar (n : ℕ) : Char :=
  if n < 10 then Char.ofNat ('0'.toNat + n) else Char.ofNat ('a'.toNat + (n - 10))

/-- Two lowercase hex characters for a byte. -/
def byteToHex (n : ℕ) : List Char := [hexChar (n / 16), hexChar (n % 16)]

/-- util._addr_to_str: renders an address via `Web3.toChecksumAddress`,
which validates that the value is a 20-byte address (raising `ValueError`
otherwise) and renders `"0x"` plus 40 hex digits.  The EIP-55 mixed-case
checksum requires keccak and is not modelled: this model renders lowercase
hex.  Every use in the verified claims either tests truthiness of the result
or compares it with the all-digit string `ETH_ADDRESS`, and an all-digit
string is unaffected by letter casing, so the model agrees with the source
on those observations. -/
def _addr_to_str (a : AddrLike) : Except Err String :=
  match a with
  | .bytes b =>
    if b.length = 20 then .ok ("0x" ++ String.mk ((b.map byteToHex).flatten))
    else .error .valueError
  | .str s =>
    if s.data.take 2 = ['0', 'x'] then
      match hexBytes (s.data.drop 2) with
      | some bs =>
        if bs.length = 20 then .ok ("0x" ++ String.mk ((bs.map byteToHex).flatten))
        else .error .valueError
      | none => .error .valueError
    else .error .nameNotFound

/-- util.is_same_address: compares the two inputs after `_str_to_addr`
normalization. -/
def is_same_address (a b : AddrLike) : Except Err Bool := do
  let x ← _str_to_addr a
  let y ← _str_to_addr b
  pure (x = y)

/-- util._validate_address: `assert _addr_to_str(a)` (the rendered string is
never empty, so only the exceptions of `_addr_to_str` can escape). -/
def _validate_address (a : AddrLike) : Except Err Unit := do
  let _ ← _addr_to_str a
  pure ()

/-! constants.py tick data and util.py tick helpers. -/

/-- constants.MIN_TICK. -/
def MIN_TICK : ℤ := -887272

/-- constants.MAX_TICK. -/
def MAX_TICK : ℤ := -MIN_TICK

/-- constants._tick_spacing dict; a missing key raises `KeyError` (`none`). -/
def _tick_spacing (fee : ℤ) : Option ℤ :=
  if fee = 100 then some 1
  else if fee = 500 then some 10
  else if fee = 3000 then some 60
  else if fee = 10000 then some 200
  else none

/-- util.get_min_tick: `-(MIN_TICK // -spacing) * spacing` (Python `//` is
floor division, `Int.fdiv`). -/
def get_min_tick (fee : ℤ) : Option ℤ :=
  (_tick_spacing fee).map fun s => -(MIN_TICK.fdiv (-s)) * s

/-- util.get_max_tick: `(MAX_TICK // spacing) * spacing`. -/
def get_max_tick (fee : ℤ) : Option ℤ :=
  (_tick_spacing fee).map fun s => MAX_TICK.fdiv s * s

/-- util.default_tick_range. -/
def default_tick_range (fee : ℤ) : Option (ℤ × ℤ) := do
  let mi ← get_min_tick fee
  let ma ← get_max_tick fee
  pure (mi, ma)

/-- util.nearest_tick: asserts the tick is within the tier's range (an
`AssertionError`, modelled as `none`), rounds `tick/spacing` to the nearest
integer (Python `round`, see `pyRound`), and adjusts by one spacing if the
rounded multiple fell outside the range. -/
def nearest_tick (tick fee : ℤ) : Option ℤ := do
  let (min_tick, max_tick) ← default_tick_range fee
  if min_tick ≤ tick ∧ tick ≤ max_tick then
    let s ← _tick_spacing fee
    let rounded := pyRound tick s * s
    if rounded < min_tick then pure (rounded + s)
    else if max_tick < rounded then pure (rounded - s)
    else pure rounded
  else none

/-! fee.py -/

/-- Message of the `InvalidFeeTier` raised when `fee is None` on v3 (the
source's triple-quoted string). -/
def explicitFeeRequiredMsg : String :=
  "\n            Explicit fee tier is required for Uniswap V3. Refer to the following link for more information:\n            https://support.uniswap.org/hc/en-us/articles/20904283758349-What-are-fee-tiers\n            "

/-- Message of the `InvalidFeeTier` raised for a non-3000 tier on v1/v2. -/
def unsupportedFeeMsg (fee version : ℤ) : String :=
  s!"Unsupported fee tier {fee} for Uniswap V{version}. Choices are: FeeTier.TIER_3000"

/-- Message of the `InvalidFeeTier` raised when the tier is not a member of
the `FeeTier` enum (the source renders the enum's value-to-member map keys,
which are 100, 500, 3000 and 10000). -/
def invalidFeeMsg (fee version : ℤ) : String :=
  s!"Invalid fee tier {fee} for Uniswap V{version}. Choices are: dict_keys([100, 500, 3000, 10000])"

/-- fee.validate_fee_tier. -/
def validate_fee_tier (fee : Option ℤ) (version : ℤ) : Except Err ℤ :=
  if version = 3 ∧ fee = none then
    .error (.invalidFeeTier explicitFeeRequiredMsg)
  else
    let f := match fee with | none => (3000 : ℤ) | some f => f
    if version < 3 ∧ f ≠ 3000 then
      .error (.invalidFeeTier (unsupportedFeeMsg f version))
    else if f = 100 ∨ f = 500 ∨ f = 3000 ∨ f = 10000 then
      .ok f
    else
      .error (.invalidFeeTier (invalidFeeMsg f version))

/-! Transaction calls, network calls and the effect monad. -/

/-- A contract function call built by the library and handed to
`_build_and_send_tx` (or encoded into a router `multicall`, which the source
always builds from exactly two encoded calls). -/
inductive TxCall
  | ethToTokenSwapInput (minTokens deadline : ℤ)
  | ethToTokenTransferInput (minTokens deadline : ℤ) (recipient : AddrLike)
  | tokenToEthSwapInput (qty minEth deadline : ℤ)
  | tokenToEthTransferInput (qty minEth deadline : ℤ) (recipient : AddrLike)
  | tokenToTokenSwapInput (qty minTokensBought minEthBought deadline : ℤ)
      (outputToken : AddrLike)
  | tokenToTokenTransferInput (qty minTokensBought minEthBought deadline : ℤ)
      (recipient outputToken : AddrLike)
  | ethToTokenSwapOutput (qty deadline : ℤ)
  | ethToTokenTransferOutput (qty deadline : ℤ) (recipient : AddrLike)
  | tokenToEthSwapOutput (qty maxTokens deadline : ℤ)
  | tokenToEthTransferOutput (qty maxTokens deadline : ℤ) (recipient : AddrLike)
  | tokenToTokenSwapOutput (qty maxTokensSold maxEthSold deadline : ℤ)
      (outputToken : AddrLike)
  | tokenToTokenTransferOutput (qty maxTokensSold maxEthSold deadline : ℤ)
      (recipient outputToken : AddrLike)
  | swapExactETHForTokens (amountOutMin : ℤ) (path : List AddrLike)
      (recipient : AddrLike) (deadline : ℤ) (supportingFeeOnTransfer : Bool)
  | swapExactTokensForETH (qty amountOutMin : ℤ) (path : List AddrLike)
      (recipient : AddrLike) (deadline : ℤ) (supportingFeeOnTransfer : Bool)
  | swapExactTokensForTokens (qty amountOutMin : ℤ) (path : List AddrLike)
      (recipient : AddrLike) (deadline : ℤ) (supportingFeeOnTransfer : Bool)
  | swapETHForExactTokens (qty : ℤ) (path : List AddrLike) (recipient : AddrLike)
      (deadline : ℤ)
  | swapTokensForExactETH (qty maxTokens : ℤ) (path : List AddrLike)
      (recipient : AddrLike) (deadline : ℤ)
  | swapTokensForExactTokens (qty amountInMax : ℤ) (path : List AddrLike)
      (recipient : AddrLike) (deadline : ℤ)
  | exactInputSingle (tokenIn tokenOut : AddrLike) (fee : ℤ) (recipient : AddrLike)
      (deadline amountIn amountOutMinimum sqrtPriceLimitX96 : ℤ)
  | exactOutputSingle (tokenIn tokenOut : AddrLike) (fee : ℤ) (recipient : AddrLike)
      (deadline amountOut amountInMaximum sqrtPriceLimitX96 : ℤ)
  | unwrapWETH9 (amountMinimum : ℤ) (recipient : AddrLike)
  | refundETH
  | multicall (first second : TxCall)
  | approve (token spender : AddrLike) (amount : ℤ)
deriving DecidableEq, Repr

/-- web3 transaction parameters assembled by `_get_tx_params` /
`_build_and_send_tx`. -/
structure TxParams where
  sender : String
  value : ℤ
  nonce : ℤ
  gas : Option ℤ
deriving DecidableEq, Repr

/-- One network interaction (a read call, a gas estimation, or a transaction
submission) issued through web3. -/
inductive NetCall
  | wethRead
  | weth9Read
  | getExchange (token : AddrLike)
  | ethToTokenInputPrice (token : AddrLike) (qty : ℤ)
  | ethToTokenOutputPrice (token : AddrLike) (qty : ℤ)
  | tokenToEthInputPrice (token : AddrLike) (qty : ℤ)
  | tokenToEthOutputPrice (token : AddrLike) (qty : ℤ)
  | getAmountsOut (qty : ℤ) (path : List AddrLike)
  | getAmountsIn (qty : ℤ) (path : List AddrLike)
  | quoteExactInputSingle (tokenIn tokenOut : AddrLike) (fee qty sqrtPriceLimitX96 : ℤ)
  | quoteExactOutputSingle (tokenIn tokenOut : AddrLike) (fee qty sqrtPriceLimitX96 : ℤ)
  | ethBalanceRead (owner : AddrLike)
  | balanceOf (token owner : AddrLike)
  | allowanceRead (token spender : AddrLike)
  | transactionCountRead
  | estimateGas
  | sendTransaction (call : TxCall) (params : TxParams)
  | waitReceipt
deriving DecidableEq, Repr

/-- A computation against the chain: the ordered list of network calls it
issued (kept also when the computation raised) together with its result. -/
structure Eff (α : Type) where
  log : List NetCall
  result : Except Err α
deriving Repr

instance : Monad Eff where
  pure a := ⟨[], .ok a⟩
  bind x f :=
    ⟨x.log ++ (match x.result with | .error _ => [] | .ok a => (f a).log),
     match x.result with | .error e => .error e | .ok a => (f a).result⟩

/-- Python `raise`. -/
def throwE (e : Err) : Eff α := ⟨[], .error e⟩

/-- A remote call: logs the interaction and returns the oracle's response. -/
def remote (c : NetCall) (v : α) : Eff α := ⟨[c], .ok v⟩

/-- Runs a pure `Except` computation (local validation) inside `Eff`. -/
def liftE (x : Except Err α) : Eff α := ⟨[], x⟩

/-- A `Uniswap` client instance together with the oracle describing the
responses of every remote read it may issue (the chain state is held fixed
for the duration of one modelled computation). -/
structure Client where
  version : ℤ
  address : AddrLike
  routerAddress : AddrLike
  lastNonce : ℤ
  defaultSlippage : ℚ
  useEstimateGas : Bool
  now : ℤ
  gasEstimate : ℤ
  transactionCount : ℤ
  wethAddress : AddrLike
  ethBalanceOf : AddrLike → ℤ
  erc20BalanceOf : AddrLike → AddrLike → ℤ
  allowanceOf : AddrLike → ℤ
  exchangeAddr : AddrLike → AddrLike
  ethToTokenInputPrice : AddrLike → ℤ → ℤ
  ethToTokenOutputPrice : AddrLike → ℤ → ℤ
  tokenToEthInputPrice : AddrLike → ℤ → ℤ
  tokenToEthOutputPrice : AddrLike → ℤ → ℤ
  getAmountsOut : ℤ → List AddrLike → ℤ
  getAmountsIn : ℤ → List AddrLike → ℤ
  quoteExactInputSingle : AddrLike → AddrLike → ℤ → ℤ → ℤ
  quoteExactOutputSingle : AddrLike → AddrLike → ℤ → ℤ → ℤ

/-- Uniswap.__init__: `max_approval_hex = "0x" + 64*"f"`. -/
def max_approval_int : ℤ := 2 ^ 256 - 1

/-- Uniswap.__init__: `max_approval_check_hex = "0x" + 15*"0" + 49*"f"`. -/
def max_approval_check_int : ℤ := 2 ^ 196 - 1

/-- Uniswap._deadline: `int(time.time()) + 10 * 60`. -/
def _deadline (env : Client) : ℤ := env.now + 600

/-- Truthiness of an optional route list: Python `if route:` is `False` for
both `None` and `[]`. -/
def routeTruthy : Option (List AddrLike) → Bool
  | none => false
  | some r => !r.isEmpty

/-- Python `if not fee: fee = 3000` on an optional integer: `None` and `0`
are falsy. -/
def defaultFeeTruthy : Option ℤ → ℤ
  | none => 3000
  | some f => if f = 0 then 3000 else f

/-! uniswap.py method embeddings.  Each method of the `Uniswap` class becomes
a function of the `Client` record; remote reads go through `remote` with the
oracle's response. -/

/-- Uniswap.get_weth_address: a read on the v2/v3 router (`WETH()` resp.
`WETH9()`); other versions raise `ValueError`. -/
def get_weth_address (env : Client) : Eff AddrLike :=
  if env.version = 2 then remote .wethRead env.wethAddress
  else if env.version = 3 then remote .weth9Read env.wethAddress
  else throwE .valueError

/-- Uniswap._exchange_address_from_token: `factory_contract.getExchange(token)`. -/
def _exchange_address_from_token (env : Client) (token : AddrLike) : Eff AddrLike :=
  remote (.getExchange token) (env.exchangeAddr token)

/-- Uniswap._exchange_contract (called with a token address): resolves the
exchange address remotely; the contract object itself is loaded locally. -/
def _exchange_contract (env : Client) (token : AddrLike) : Eff AddrLike :=
  _exchange_address_from_token env token

/-- Uniswap.get_eth_balance. -/
def get_eth_balance (env : Client) : Eff ℤ :=
  remote (.ethBalanceRead env.address) (env.ethBalanceOf env.address)

/-- Uniswap.get_token_balance: validates the address, short-circuits to the
ETH balance when the normalized address equals `ETH_ADDRESS`, otherwise an
ERC-20 `balanceOf` read. -/
def get_token_balance (env : Client) (token : AddrLike) : Eff ℤ := do
  let s ← liftE (_addr_to_str token)
  if s = ETH_ADDRESS then get_eth_balance env
  else remote (.balanceOf token env.address) (env.erc20BalanceOf token env.address)

/-- Uniswap.get_ex_eth_balance (`@supports([1])`). -/
def get_ex_eth_balance (env : Client) (token : AddrLike) : Eff ℤ :=
  if env.version = 1 then do
    let ex ← _exchange_address_from_token env token
    remote (.ethBalanceRead ex) (env.ethBalanceOf ex)
  else throwE .unsupportedVersion

/-- Uniswap.get_ex_token_balance (`@supports([1])`). -/
def get_ex_token_balance (env : Client) (token : AddrLike) : Eff ℤ :=
  if env.version = 1 then do
    let ex ← _exchange_address_from_token env token
    remote (.balanceOf token ex) (env.erc20BalanceOf token ex)
  else throwE .unsupportedVersion

/-- Uniswap._get_tx_params: sender, value, and
`nonce = max(last_nonce, get_transaction_count(address))`; the optional gas
is attached only when truthy. -/
def _get_tx_params (env : Client) (value : ℤ) (gas : Option ℤ) : Eff TxParams := do
  let sender ← liftE (_addr_to_str env.address)
  let count ← remote .transactionCountRead env.transactionCount
  let params : TxParams := { sender := sender, value := value,
                             nonce := max env.lastNonce count, gas := none }
  match gas with
  | some g => if g = 0 then pure params else pure { params with gas := some g }
  | none => pure params

/-- Uniswap._build_and_send_tx: defaults the params, fills in gas (remote
estimation with a 20% margin, or the fixed 250000 fallback), signs locally
and broadcasts.  The model returns the constructed call and parameters (the
observable content of the broadcast transaction) instead of the opaque hash;
the `finally` bump of `last_nonce` is client mutation outside one modelled
computation. -/
def _build_and_send_tx (env : Client) (call : TxCall) (txp : Option TxParams) :
    Eff (TxCall × TxParams) := do
  let params ← match txp with
    | none => _get_tx_params env 0 none
    | some p => pure p
  let params ← match params.gas with
    | some _ => pure params
    | none =>
      if env.useEstimateGas then do
        let est ← remote .estimateGas env.gasEstimate
        pure { params with gas := some (pythonInt ((est : ℚ) * (12 / 10))) }
      else pure { params with gas := some 250000 }
  let _ ← remote (.sendTransaction call params) (0 : ℤ)
  pure (call, params)

/-! Price helpers (`_get_*_price`).  The v3 branch of the ETH↔token helpers
calls `_get_token_token_input_price`/`..output_price`, which at version 3
reduces to the single-hop quoter call; to break the (version-bounded) mutual
recursion the v3 quoter path is factored into `tokenTokenInputPriceV3` /
`tokenTokenOutputPriceV3`, and a lemma below checks the factoring equals the
full function at version 3. -/

/-- The `version == 3` branch of `_get_token_token_input_price`: rejects a
truthy custom route, then `quoter.quoteExactInputSingle(token0, token1, fee,
qty, 0)`. -/
def tokenTokenInputPriceV3 (env : Client) (token0 token1 : AddrLike) (qty fee : ℤ)
    (route : Option (List AddrLike)) : Eff ℤ :=
  if routeTruthy route then throwE .customRouteNotSupported
  else remote (.quoteExactInputSingle token0 token1 fee qty 0)
    (env.quoteExactInputSingle token0 token1 fee qty)

/-- Uniswap._get_eth_token_input_price. -/
def _get_eth_token_input_price (env : Client) (token : AddrLike) (qty fee : ℤ) :
    Eff ℤ :=
  if env.version = 1 then do
    let _ex ← _exchange_contract env token
    remote (.ethToTokenInputPrice token qty) (env.ethToTokenInputPrice token qty)
  else if env.version = 2 then do
    let w ← get_weth_address env
    remote (.getAmountsOut qty [w, token]) (env.getAmountsOut qty [w, token])
  else if env.version = 3 then do
    let w ← get_weth_address env
    tokenTokenInputPriceV3 env w token qty fee none
  else throwE .valueError

/-- Uniswap._get_token_eth_input_price. -/
def _get_token_eth_input_price (env : Client) (token : AddrLike) (qty fee : ℤ) :
    Eff ℤ :=
  if env.version = 1 then do
    let _ex ← _exchange_contract env token
    remote (.tokenToEthInputPrice token qty) (env.tokenToEthInputPrice token qty)
  else if env.version = 2 then do
    let w ← get_weth_address env
    remote (.getAmountsOut qty [token, w]) (env.getAmountsOut qty [token, w])
  else if env.version = 3 then do
    let w ← get_weth_address env
    tokenTokenInputPriceV3 env token w qty fee none
  else throwE .valueError

/-- Uniswap._get_token_token_input_price: on v2 with no route, WETH
endpoints delegate to the ETH helpers and otherwise the default
`[token0, WETH, token1]` route is used; v3 takes the single-hop quoter path;
v1 raises `ValueError("function not supported ...")`. -/
def _get_token_token_input_price (env : Client) (token0 token1 : AddrLike)
    (qty fee : ℤ) (route : Option (List AddrLike)) : Eff ℤ :=
  if route = none ∧ env.version = 2 then do
    let w ← get_weth_address env
    let b0 ← liftE (is_same_address token0 w)
    if b0 then _get_eth_token_input_price env token1 qty fee
    else do
      let b1 ← liftE (is_same_address token1 w)
      if b1 then _get_token_eth_input_price env token0 qty fee
      else
        remote (.getAmountsOut qty [token0, w, token1])
          (env.getAmountsOut qty [token0, w, token1])
  else if env.version = 2 then
    match route with
    | some r => remote (.getAmountsOut qty r) (env.getAmountsOut qty r)
    | none => throwE .typeError
  else if env.version = 3 then tokenTokenInputPriceV3 env token0 token1 qty fee route
  else throwE .valueError

/-- The `version == 3` branch of `_get_token_token_output_price`: defaults a
falsy fee to 3000, rejects a truthy custom route, then
`quoter.quoteExactOutputSingle(token0, token1, fee, qty, 0)`. -/
def tokenTokenOutputPriceV3 (env : Client) (token0 token1 : AddrLike) (qty : ℤ)
    (fee : Option ℤ) (route : Option (List AddrLike)) : Eff ℤ :=
  let f := defaultFeeTruthy fee
  if routeTruthy route then throwE .customRouteNotSupported
  else remote (.quoteExactOutputSingle token0 token1 f qty 0)
    (env.quoteExactOutputSingle token0 token1 f qty)

/-- Uniswap._get_eth_token_output_price: the v3 branch defaults a `None` fee
to 3000 (a warning only) and delegates through the token-token helper with
WETH as input. -/
def _get_eth_token_output_price (env : Client) (token : AddrLike) (qty : ℤ)
    (fee : Option ℤ) : Eff ℤ :=
  if env.version = 1 then do
    let _ex ← _exchange_contract env token
    remote (.ethToTokenOutputPrice token qty) (env.ethToTokenOutputPrice token qty)
  else if env.version = 2 then do
    let w ← get_weth_address env
    remote (.getAmountsIn qty [w, token]) (env.getAmountsIn qty [w, token])
  else if env.version = 3 then do
    let f := match fee with | none => (3000 : ℤ) | some x => x
    let w ← get_weth_address env
    tokenTokenOutputPriceV3 env w token qty (some f) none
  else throwE .valueError

/-- Uniswap._get_token_eth_output_price: the v3 branch defaults a falsy fee
(`if not fee:`) to 3000 and delegates through the token-token helper with
WETH as output. -/
def _get_token_eth_output_price (env : Client) (token : AddrLike) (qty : ℤ)
    (fee : Option ℤ) : Eff ℤ :=
  if env.version = 1 then do
    let _ex ← _exchange_contract env token
    remote (.tokenToEthOutputPrice token qty) (env.tokenToEthOutputPrice token qty)
  else if env.version = 2 then do
    let w ← get_weth_address env
    remote (.getAmountsIn qty [token, w]) (env.getAmountsIn qty [token, w])
  else if env.version = 3 then do
    let f := defaultFeeTruthy fee
    let w ← get_weth_address env
    tokenTokenOutputPriceV3 env token w qty (some f) none
  else throwE .valueError

/-- Uniswap._get_token_token_output_price, including its `@supports([2, 3])`
guard (any other version raises the decorator's generic Exception before
the body runs). -/
def _get_token_token_output_price (env : Client) (token0 token1 : AddrLike)
    (qty : ℤ) (fee : Option ℤ) (route : Option (List AddrLike)) : Eff ℤ :=
  if env.version = 2 ∨ env.version = 3 then
    if routeTruthy route = false ∧ env.version = 2 then do
      let w ← get_weth_address env
      let b0 ← liftE (is_same_address token0 w)
      if b0 then _get_eth_token_output_price env token1 qty fee
      else do
        let b1 ← liftE (is_same_address token1 w)
        if b1 then _get_token_eth_output_price env token0 qty fee
        else
          remote (.getAmountsIn qty [token0, w, token1])
            (env.getAmountsIn qty [token0, w, token1])
    else if env.version = 2 then
      match route with
      | some r => remote (.getAmountsIn qty r) (env.getAmountsIn qty r)
      | none => throwE .typeError
    else tokenTokenOutputPriceV3 env token0 token1 qty fee route
  else throwE .unsupportedVersion

/-- Uniswap.get_price_input: defaults a `None` fee to 3000 (only a logger
warning on v3) and dispatches on raw `==` comparison of `token0`/`token1`
with the `ETH_ADDRESS` string. -/
def get_price_input (env : Client) (token0 token1 : AddrLike) (qty : ℤ)
    (fee : Option ℤ) (route : Option (List AddrLike)) : Eff ℤ :=
  let f := match fee with | none => (3000 : ℤ) | some x => x
  if pyEq token0 ethAddrLike then _get_eth_token_input_price env token1 qty f
  else if pyEq token1 ethAddrLike then _get_token_eth_input_price env token0 qty f
  else _get_token_token_input_price env token0 token1 qty f route

/-- Uniswap.get_price_output: defaults a `None` fee to 3000 and dispatches on
`is_same_address` comparison (normalized) with `ETH_ADDRESS`. -/
def get_price_output (env : Client) (token0 token1 : AddrLike) (qty : ℤ)
    (fee : Option ℤ) (route : Option (List AddrLike)) : Eff ℤ := do
  let f := match fee with | none => (3000 : ℤ) | some x => x
  let b0 ← liftE (is_same_address token0 ethAddrLike)
  if b0 then _get_eth_token_output_price env token1 qty (some f)
  else do
    let b1 ← liftE (is_same_address token1 ethAddrLike)
    if b1 then _get_token_eth_output_price env token0 qty (some f)
    else _get_token_token_output_price env token0 token1 qty (some f) route

/-! Price calculation utils for v1 two-leg trades.  Python 3 `/` is float
division, modelled as exact `ℚ` division with an explicit
`ZeroDivisionError`. -/

/-- Uniswap._calculate_max_input_token. -/
def _calculate_max_input_token (env : Client) (input_token : AddrLike) (qty : ℤ)
    (output_token : AddrLike) : Eff (ℤ × ℤ) := do
  let input_reserve_b ← get_ex_eth_balance env output_token
  let output_reserve_b ← get_ex_token_balance env output_token
  let numerator_b := qty * input_reserve_b * 1000
  let denominator_b := (output_reserve_b - qty) * 997
  if denominator_b = 0 then throwE .zeroDivision
  let input_amount_b : ℚ := (numerator_b : ℚ) / (denominator_b : ℚ) + 1
  let input_reserve_a ← get_ex_token_balance env input_token
  let output_reserve_a ← get_ex_eth_balance env input_token
  let numerator_a : ℚ := input_amount_b * (input_reserve_a : ℚ) * 1000
  let denominator_a : ℚ := ((output_reserve_a : ℚ) - input_amount_b) * 997
  if denominator_a = 0 then throwE .zeroDivision
  let input_amount_a := numerator_a / denominator_a - 1
  pure (pythonInt input_amount_a, pythonInt ((12 / 10 : ℚ) * input_amount_b))

/-- Uniswap._calculate_max_output_token (parameter names as in the source;
note the source's only call site passes `(input_token, qty, output_token)`
into the signature `(output_token, qty, input_token)`). -/
def _calculate_max_output_token (env : Client) (output_token : AddrLike) (qty : ℤ)
    (input_token : AddrLike) : Eff (ℤ × ℤ) := do
  let inputReserveA ← get_ex_token_balance env input_token
  let outputReserveA ← get_ex_eth_balance env input_token
  let numeratorA := qty * outputReserveA * 997
  let denominatorA := inputReserveA * 1000 + qty * 997
  if denominatorA = 0 then throwE .zeroDivision
  let outputAmountA : ℚ := (numeratorA : ℚ) / (denominatorA : ℚ)
  let inputReserveB ← get_ex_token_balance env output_token
  let outputReserveB ← get_ex_eth_balance env output_token
  let numeratorB : ℚ := outputAmountA * (outputReserveB : ℚ) * 997
  let denominatorB : ℚ := (inputReserveB : ℚ) * 1000 + outputAmountA * 997
  if denominatorB = 0 then throwE .zeroDivision
  let outputAmountB := numeratorB / denominatorB
  pure (pythonInt outputAmountB, pythonInt ((12 / 10 : ℚ) * outputAmountA))

/-! The six internal swap functions. -/

/-- Uniswap._eth_to_token_swap_input. -/
def _eth_to_token_swap_input (env : Client) (output_token : AddrLike) (qty : ℤ)
    (recipient : Option AddrLike) (fee : ℤ) (slippage : ℚ)
    (fee_on_transfer : Bool) : Eff (TxCall × TxParams) := do
  if pyEq output_token ethAddrLike then throwE .valueError
  let eth_balance ← get_eth_balance env
  if qty > eth_balance then throwE (.insufficientBalance eth_balance qty)
  if env.version = 1 then do
    let _ex ← _exchange_contract env output_token
    let tx_params ← _get_tx_params env qty none
    let call : TxCall := match recipient with
      | none => .ethToTokenSwapInput qty (_deadline env)
      | some r => .ethToTokenTransferInput qty (_deadline env) r
    _build_and_send_tx env call (some tx_params)
  else if env.version = 2 then do
    let rcpt := match recipient with | none => env.address | some r => r
    let price ← _get_eth_token_input_price env output_token qty fee
    let amount_out_min := pythonInt ((1 - slippage) * (price : ℚ))
    let w ← get_weth_address env
    let tx_params ← _get_tx_params env qty none
    _build_and_send_tx env
      (.swapExactETHForTokens amount_out_min [w, output_token] rcpt (_deadline env)
        fee_on_transfer)
      (some tx_params)
  else if env.version = 3 then do
    let rcpt := match recipient with | none => env.address | some r => r
    if fee_on_transfer then throwE .feeOnTransferNotSupported
    let price ← _get_eth_token_input_price env output_token qty fee
    let min_tokens_bought := pythonInt ((1 - slippage) * (price : ℚ))
    let w ← get_weth_address env
    let tx_params ← _get_tx_params env qty none
    _build_and_send_tx env
      (.exactInputSingle w output_token fee rcpt (_deadline env) qty
        min_tokens_bought 0)
      (some tx_params)
  else throwE .valueError

/-- Uniswap._token_to_eth_swap_input (the v1 call passes `1` as the minimum
ETH bought and default transaction parameters). -/
def _token_to_eth_swap_input (env : Client) (input_token : AddrLike) (qty : ℤ)
    (recipient : Option AddrLike) (fee : ℤ) (slippage : ℚ)
    (fee_on_transfer : Bool) : Eff (TxCall × TxParams) := do
  if pyEq input_token ethAddrLike then throwE .valueError
  let input_balance ← get_token_balance env input_token
  if qty > input_balance then throwE (.insufficientBalance input_balance qty)
  if env.version = 1 then do
    let _ex ← _exchange_contract env input_token
    let call : TxCall := match recipient with
      | none => .tokenToEthSwapInput qty 1 (_deadline env)
      | some r => .tokenToEthTransferInput qty 1 (_deadline env) r
    _build_and_send_tx env call none
  else if env.version = 2 then do
    let rcpt := match recipient with | none => env.address | some r => r
    let price ← _get_token_eth_input_price env input_token qty fee
    let amount_out_min := pythonInt ((1 - slippage) * (price : ℚ))
    let w ← get_weth_address env
    _build_and_send_tx env
      (.swapExactTokensForETH qty amount_out_min [input_token, w] rcpt
        (_deadline env) fee_on_transfer)
      none
  else if env.version = 3 then do
    let rcpt := match recipient with | none => env.address | some r => r
    if fee_on_transfer then throwE .feeOnTransferNotSupported
    let output_token ← get_weth_address env
    let price ← _get_token_eth_input_price env input_token qty fee
    let min_tokens_bought := pythonInt ((1 - slippage) * (price : ℚ))
    let tx_params ← _get_tx_params env 0 none
    _build_and_send_tx env
      (.multicall
        (.exactInputSingle input_token output_token fee ethAddrLike (_deadline env)
          qty min_tokens_bought 0)
        (.unwrapWETH9 min_tokens_bought rcpt))
      (some tx_params)
  else throwE .valueError

/-- Uniswap._token_to_token_swap_input. -/
def _token_to_token_swap_input (env : Client) (input_token output_token : AddrLike)
    (qty : ℤ) (recipient : Option AddrLike) (fee : ℤ) (slippage : ℚ)
    (fee_on_transfer : Bool) : Eff (TxCall × TxParams) := do
  let input_balance ← get_token_balance env input_token
  if qty > input_balance then throwE (.insufficientBalance input_balance qty)
  let rcpt := match recipient with | none => env.address | some r => r
  if pyEq input_token ethAddrLike then throwE .valueError
  if pyEq output_token ethAddrLike then throwE .valueError
  if env.version = 1 then do
    let _ex ← _exchange_contract env input_token
    let (min_tokens_bought, min_eth_bought) ←
      _calculate_max_output_token env input_token qty output_token
    let call : TxCall := match recipient with
      | none => .tokenToTokenSwapInput qty min_tokens_bought min_eth_bought
          (_deadline env) output_token
      | some r => .tokenToTokenTransferInput qty min_tokens_bought min_eth_bought
          (_deadline env) r output_token
    _build_and_send_tx env call none
  else if env.version = 2 then do
    let price ← _get_token_token_input_price env input_token output_token qty fee none
    let min_tokens_bought := pythonInt ((1 - slippage) * (price : ℚ))
    let w ← get_weth_address env
    _build_and_send_tx env
      (.swapExactTokensForTokens qty min_tokens_bought [input_token, w, output_token]
        rcpt (_deadline env) fee_on_transfer)
      none
  else if env.version = 3 then do
    if fee_on_transfer then throwE .feeOnTransferNotSupported
    let price ← _get_token_token_input_price env input_token output_token qty fee none
    let min_tokens_bought := pythonInt ((1 - slippage) * (price : ℚ))
    let tx_params ← _get_tx_params env 0 none
    _build_and_send_tx env
      (.exactInputSingle input_token output_token fee rcpt (_deadline env) qty
        min_tokens_bought 0)
      (some tx_params)
  else throwE .valueError

/-- Uniswap._eth_to_token_swap_output.  The slippage-padded
`amount_in_max = int((1 + slippage) * cost)` is checked against the balance;
v1 re-quotes the cost (without slippage) for the transaction value, v2
recomputes `eth_qty` from a fresh quote, v3 uses `amount_in_max` in a
`multicall` of `exactOutputSingle` and `refundETH`. -/
def _eth_to_token_swap_output (env : Client) (output_token : AddrLike) (qty : ℤ)
    (recipient : Option AddrLike) (fee : ℤ) (slippage : ℚ) :
    Eff (TxCall × TxParams) := do
  if pyEq output_token ethAddrLike then throwE .valueError
  let eth_balance ← get_eth_balance env
  let cost ← _get_eth_token_output_price env output_token qty (some fee)
  let amount_in_max := pythonInt ((1 + slippage) * (cost : ℚ))
  if amount_in_max > eth_balance then
    throwE (.insufficientBalance eth_balance amount_in_max)
  if env.version = 1 then do
    let _ex ← _exchange_contract env output_token
    let eth_qty ← _get_eth_token_output_price env output_token qty none
    let tx_params ← _get_tx_params env eth_qty none
    let call : TxCall := match recipient with
      | none => .ethToTokenSwapOutput qty (_deadline env)
      | some r => .ethToTokenTransferOutput qty (_deadline env) r
    _build_and_send_tx env call (some tx_params)
  else if env.version = 2 then do
    let rcpt := match recipient with | none => env.address | some r => r
    let cost2 ← _get_eth_token_output_price env output_token qty (some fee)
    let eth_qty := pythonInt ((1 + slippage) * (cost2 : ℚ))
    let w ← get_weth_address env
    let tx_params ← _get_tx_params env eth_qty none
    _build_and_send_tx env
      (.swapETHForExactTokens qty [w, output_token] rcpt (_deadline env))
      (some tx_params)
  else if env.version = 3 then do
    let rcpt := match recipient with | none => env.address | some r => r
    let w ← get_weth_address env
    let tx_params ← _get_tx_params env amount_in_max none
    _build_and_send_tx env
      (.multicall
        (.exactOutputSingle w output_token fee rcpt (_deadline env) qty
          amount_in_max 0)
        .refundETH)
      (some tx_params)
  else throwE .valueError

/-- Uniswap._token_to_eth_swap_output.  v1 recomputes the required input from
the exchange reserves with the constant-product formula in float arithmetic;
v2 applies the slippage pad to the quoted cost; v3 uses `amount_in_max` in a
`multicall` of `exactOutputSingle` (recipient `ETH_ADDRESS`) and
`unwrapWETH9`. -/
def _token_to_eth_swap_output (env : Client) (input_token : AddrLike) (qty : ℤ)
    (recipient : Option AddrLike) (fee : ℤ) (slippage : ℚ) :
    Eff (TxCall × TxParams) := do
  if pyEq input_token ethAddrLike then throwE .valueError
  let input_balance ← get_token_balance env input_token
  let cost ← _get_token_eth_output_price env input_token qty (some fee)
  let amount_in_max := pythonInt ((1 + slippage) * (cost : ℚ))
  if amount_in_max > input_balance then
    throwE (.insufficientBalance input_balance amount_in_max)
  if env.version = 1 then do
    let inputReserve ← get_ex_token_balance env input_token
    let outputReserve ← get_ex_eth_balance env input_token
    let numerator := qty * inputReserve * 1000
    let denominator := (outputReserve - qty) * 997
    if denominator = 0 then throwE .zeroDivision
    let inputAmount : ℚ := (numerator : ℚ) / (denominator : ℚ) + 1
    let max_tokens := pythonInt ((1 + slippage) * inputAmount)
    let _ex ← _exchange_contract env input_token
    let call : TxCall := match recipient with
      | none => .tokenToEthSwapOutput qty max_tokens (_deadline env)
      | some r => .tokenToEthTransferOutput qty max_tokens (_deadline env) r
    _build_and_send_tx env call none
  else if env.version = 2 then do
    let rcpt := match recipient with | none => env.address | some r => r
    let max_tokens := pythonInt ((1 + slippage) * (cost : ℚ))
    let w ← get_weth_address env
    _build_and_send_tx env
      (.swapTokensForExactETH qty max_tokens [input_token, w] rcpt (_deadline env))
      none
  else if env.version = 3 then do
    let rcpt := match recipient with | none => env.address | some r => r
    let w ← get_weth_address env
    let tx_params ← _get_tx_params env 0 none
    _build_and_send_tx env
      (.multicall
        (.exactOutputSingle input_token w fee ethAddrLike (_deadline env) qty
          amount_in_max 0)
        (.unwrapWETH9 qty rcpt))
      (some tx_params)
  else throwE .valueError

/-- Uniswap._token_to_token_swap_output.  The pre-trade balance check quotes
the cost through `_get_token_token_output_price`, whose `@supports([2, 3])`
guard raises on version 1 before anything else in this function can run. -/
def _token_to_token_swap_output (env : Client) (input_token output_token : AddrLike)
    (qty : ℤ) (recipient : Option AddrLike) (fee : ℤ) (slippage : ℚ) :
    Eff (TxCall × TxParams) := do
  if pyEq input_token ethAddrLike then throwE .valueError
  if pyEq output_token ethAddrLike then throwE .valueError
  let input_balance ← get_token_balance env input_token
  let cost ← _get_token_token_output_price env input_token output_token qty
    (some fee) none
  let amount_in_max := pythonInt ((1 + slippage) * (cost : ℚ))
  if amount_in_max > input_balance then
    throwE (.insufficientBalance input_balance amount_in_max)
  if env.version = 1 then do
    let _ex ← _exchange_contract env input_token
    let (max_tokens_sold, max_eth_sold) ←
      _calculate_max_input_token env input_token qty output_token
    let tx_params ← _get_tx_params env 0 none
    let call : TxCall := match recipient with
      | none => .tokenToTokenSwapOutput qty max_tokens_sold max_eth_sold
          (_deadline env) output_token
      | some r => .tokenToTokenTransferOutput qty max_tokens_sold max_eth_sold
          (_deadline env) r output_token
    _build_and_send_tx env call (some tx_params)
  else if env.version = 2 then do
    let rcpt := match recipient with | none => env.address | some r => r
    let cost2 ← _get_token_token_output_price env input_token output_token qty
      (some fee) none
    let amount_in_max2 := pythonInt ((1 + slippage) * (cost2 : ℚ))
    let w ← get_weth_address env
    _build_and_send_tx env
      (.swapTokensForExactTokens qty amount_in_max2 [input_token, w, output_token]
        rcpt (_deadline env))
      none
  else if env.version = 3 then do
    let rcpt := match recipient with | none => env.address | some r => r
    let tx_params ← _get_tx_params env 0 none
    _build_and_send_tx env
      (.exactOutputSingle input_token output_token fee rcpt (_deadline env) qty
        amount_in_max 0)
      (some tx_params)
  else throwE .valueError

/-! Approval management (decorators.check_approval, Uniswap._is_approved,
Uniswap.approve). -/

/-- Uniswap._is_approved, parameterized by the current on-chain allowance map
(so the wrapper can reflect an allowance just raised by `approve`): validates
the address, resolves the spender (the v1 exchange via a remote factory read,
or the v2/v3 router), reads the allowance and compares it with
`max_approval_check_int`.  A version outside 1-3 leaves `contract_addr`
unbound in the source (an `UnboundLocalError`). -/
def _is_approved (env : Client) (allow : AddrLike → ℤ) (token : AddrLike) :
    Eff Bool := do
  let _ ← liftE (_validate_address token)
  let contract_addr ←
    if env.version = 1 then _exchange_address_from_token env token
    else if env.version = 2 ∨ env.version = 3 then pure env.routerAddress
    else throwE .runtimeError
  let amount ← remote (.allowanceRead token contract_addr) (allow token)
  pure (decide (amount ≥ max_approval_check_int))

/-- Uniswap.approve (with the default `max_approval=None`, so
`max_approval_int` is used): resolves the spender, renders the token address
for the log line, then builds, sends and awaits an ERC-20 `approve`
transaction (the trailing `time.sleep(1)` has no observable effect here). -/
def approve (env : Client) (token : AddrLike) : Eff Unit := do
  let contract_addr ←
    if env.version = 1 then _exchange_address_from_token env token
    else pure env.routerAddress
  let _ ← liftE (_addr_to_str token)
  let _ ← _build_and_send_tx env (.approve token contract_addr max_approval_int) none
  let _ ← remote .waitReceipt (0 : ℤ)
  pure ()

/-- decorators.check_approval specialised to a two-token method
(`make_trade` / `make_trade_output`): each of the first two positional
arguments that is not the `ETH_ADDRESS` string is checked and, if needed,
approved; the allowance map seen by the second check reflects the first
approval (the approve transaction was awaited).  Returns the updated
allowance map. -/
def check_approval_two (env : Client) (arg0 arg1 : AddrLike) : Eff Unit := do
  let token : Option AddrLike :=
    if pyEq arg0 ethAddrLike then none else some arg0
  let token_two : Option AddrLike :=
    if pyEq arg1 ethAddrLike then none else some arg1
  let allow ← match token with
    | some t => do
      let is_ap ← _is_approved env env.allowanceOf t
      if is_ap then pure env.allowanceOf
      else do
        approve env t
        pure (fun t' => if pyEq t' t then max_approval_int else env.allowanceOf t')
    | none => pure env.allowanceOf
  match token_two with
  | some t => do
    let is_ap ← _is_approved env allow t
    if is_ap then pure ()
    else approve env t
  | none => pure ()

/-- Uniswap.make_trade, including its `@check_approval` wrapper.  The body
rejects a non-integer quantity (`qty : ℤ` is an integer by construction),
defaults the fee to 3000 (only warning on v3) and the slippage to the
client's default, raises a bare `ValueError` when the input and output token
compare equal, then dispatches on `==` comparison with the `ETH_ADDRESS`
string. -/
def make_trade (env : Client) (input_token output_token : AddrLike) (qty : ℤ)
    (recipient : Option AddrLike) (fee : Option ℤ) (slippage : Option ℚ)
    (fee_on_transfer : Bool) : Eff (TxCall × TxParams) := do
  check_approval_two env input_token output_token
  let f := match fee with | none => (3000 : ℤ) | some x => x
  let slip := match slippage with | none => env.defaultSlippage | some s => s
  if pyEq input_token output_token then throwE .valueError
  if pyEq input_token ethAddrLike then
    _eth_to_token_swap_input env output_token qty recipient f slip fee_on_transfer
  else if pyEq output_token ethAddrLike then
    _token_to_eth_swap_input env input_token qty recipient f slip fee_on_transfer
  else
    _token_to_token_swap_input env input_token output_token qty recipient f slip
      fee_on_transfer

/-! Guard extraction: the slippage-bound field of each constructed swap call
(the v3 `multicall` always carries the swap as its first encoded call). -/

/-- The `amountInMaximum`/`max_tokens` guard of an exact-output swap call. -/
def maxInOf : TxCall → Option ℤ
  | .swapTokensForExactETH _ m _ _ _ => some m
  | .swapTokensForExactTokens _ m _ _ _ => some m
  | .exactOutputSingle _ _ _ _ _ _ m _ => some m
  | .tokenToEthSwapOutput _ m _ => some m
  | .tokenToEthTransferOutput _ m _ _ => some m
  | .multicall c _ => maxInOf c
  | _ => none

/-- The `amountOutMinimum`/`min_tokens` guard of an exact-input swap call. -/
def minOutOf : TxCall → Option ℤ
  | .swapExactETHForTokens m _ _ _ _ => some m
  | .swapExactTokensForETH _ m _ _ _ _ => some m
  | .swapExactTokensForTokens _ m _ _ _ _ => some m
  | .exactInputSingle _ _ _ _ _ _ m _ => some m
  | .multicall c _ => minOutOf c
  | _ => none

/-! Concrete clients and addresses used to instantiate the theorems. -/

/-- A syntactically valid ERC-20 token address (DAI). -/
def daiAddr : AddrLike := .str "0x6B175474E89094C44Da98b954EedeAC495271d0F"

/-- A second valid ERC-20 token address (UNI). -/
def uniAddr : AddrLike := .str "0x1f9840a85d5aF5bf1D1762F925BDADdC4201F984"

/-- The WETH9 mainnet address, as returned by the router contracts. -/
def wethAddr : AddrLike := .str "0xC02aaA39b223FE8D0A0e5C4F27eAD9083C756Cc2"

/-- The zero address in its raw 20-byte representation. -/
def zeroBytesAddr : AddrLike := .bytes (List.replicate 20 0)

/-- A baseline concrete client: generous balances, zero nonce state, fixed
gas fallback, all price oracles returning small constants. -/
def baseClient (version : ℤ) : Client where
  version := version
  address := zeroBytesAddr
  routerAddress := .str "0x7a250d5630B4cF539739dF2C5dAcb4c659F2488D"
  lastNonce := 0
  defaultSlippage := 1 / 100
  useEstimateGas := false
  now := 0
  gasEstimate := 30000
  transactionCount := 0
  wethAddress := wethAddr
  ethBalanceOf := fun _ => 1000000000
  erc20BalanceOf := fun _ _ => 1000000000
  allowanceOf := fun _ => max_approval_check_int
  exchangeAddr := fun _ => .str "0x2C4Bd064b998838076fa341A83d007FC2FA50957"
  ethToTokenInputPrice := fun _ _ => 100
  ethToTokenOutputPrice := fun _ _ => 100
  tokenToEthInputPrice := fun _ _ => 100
  tokenToEthOutputPrice := fun _ _ => 100
  getAmountsOut := fun _ _ => 100
  getAmountsIn := fun _ _ => 5
  quoteExactInputSingle := fun _ _ _ _ => 100
  quoteExactOutputSingle := fun _ _ _ _ => 5

/-- A version-2 client whose allowance oracle reports no approval. -/
def unapprovedClient : Client :=
  { baseClient 2 with allowanceOf := fun _ => 0 }

/-- A version-1 client with nearly empty exchange reserves (the tiny-pool
scenario of the token→token exact-output claim). -/
def tinyPoolClient : Client :=
  { baseClient 1 with
      ethBalanceOf := fun _ => 1,
      erc20BalanceOf := fun _ _ => 1 }

/-! Projection lemmas for the effect monad. -/

theorem result_bind (x : Eff α) (f : α → Eff β) :
    (x >>= f).result =
      match x.result with | .error e => .error e | .ok a => (f a).result := rfl

theorem log_bind (x : Eff α) (f : α → Eff β) :
    (x >>= f).log =
      x.log ++ (match x.result with | .error _ => [] | .ok a => (f a).log) := rfl

theorem result_pure (a : α) : (pure a : Eff α).result = .ok a := rfl

theorem log_pure (a : α) : (pure a : Eff α).log = [] := rfl

theorem result_remote (c : NetCall) (v : α) : (remote c v).result = .ok v := rfl

theorem log_remote (c : NetCall) (v : α) : (remote c v).log = [c] := rfl

theorem result_liftE (x : Except Err α) : (liftE x).result = x := rfl

theorem log_liftE (x : Except Err α) : (liftE x).log = [] := rfl

theorem result_throwE (e : Err) : (throwE e : Eff α).result = .error e := rfl

theorem log_throwE (e : Err) : (throwE e : Eff α).log = [] := rfl

theorem result_ite (c : Prop) [Decidable c] (x y : Eff α) :
    (if c then x else y).result = if c then x.result else y.result := by
  split <;> rfl

theorem log_ite (c : Prop) [Decidable c] (x y : Eff α) :
    (if c then x else y).log = if c then x.log else y.log := by
  split <;> rfl

/-- Factoring check: at version 3 the full token-token input-price function
is exactly its quoter branch. -/
theorem token_token_input_price_v3_factoring (env : Client)
    (t0 t1 : AddrLike) (qty fee : ℤ) (h : env.version = 3) :
    _get_token_token_input_price env t0 t1 qty fee none =
      tokenTokenInputPriceV3 env t0 t1 qty fee none := by
  unfold _get_token_token_input_price
  rw [h]
  norm_num

/-- Factoring check: at version 3 the full token-token output-price function
is exactly its quoter branch. -/
theorem token_token_output_price_v3_factoring (env : Client)
    (t0 t1 : AddrLike) (qty : ℤ) (fee : Option ℤ)
    (route : Option (List AddrLike)) (h : env.version = 3) :
    _get_token_token_output_price env t0 t1 qty fee route =
      tokenTokenOutputPriceV3 env t0 t1 qty fee route := by
  unfold _get_token_token_output_price
  rw [h]
  norm_num

/-- C5: `validate_fee_tier(None, v)` returns the 3000 tier for v ∈ {1, 2};
`validate_fee_tier(None, 3)` raises `InvalidFeeTier` with a message
containing "Explicit fee tier is required"; for v ∈ {1, 2} every explicit
fee ≠ 3000 raises `InvalidFeeTier`; for v = 3 every fee outside
{100, 500, 3000, 10000} raises `InvalidFeeTier` whose message lists the
valid set, and every fee inside that set is returned unchanged. -/
theorem validate_fee_tier_spec :
    (∀ v : ℤ, v = 1 ∨ v = 2 → validate_fee_tier none v = .ok 3000)
    ∧ (∃ pre post : String,
        validate_fee_tier none 3 =
          .error (.invalidFeeTier (pre ++ "Explicit fee tier is required" ++ post)))
    ∧ (∀ v f : ℤ, (v = 1 ∨ v = 2) → f ≠ 3000 →
        validate_fee_tier (some f) v =
          .error (.invalidFeeTier (unsupportedFeeMsg f v)))
    ∧ (∀ f : ℤ, f ∉ ([100, 500, 3000, 10000] : List ℤ) →
        validate_fee_tier (some f) 3 = .error (.invalidFeeTier (invalidFeeMsg f 3)))
    ∧ (∀ f : ℤ, f ∈ ([100, 500, 3000, 10000] : List ℤ) →
        validate_fee_tier (some f) 3 = .ok f) := by
  refine ⟨?_, ?_, ?_, ?_, ?_⟩
  · rintro v (rfl | rfl) <;> rfl
  · refine ⟨"\n            ",
      " for Uniswap V3. Refer to the following link for more information:\n            https://support.uniswap.org/hc/en-us/articles/20904283758349-What-are-fee-tiers\n            ",
      ?_⟩
    rfl
  · rintro v f (rfl | rfl) hf <;> simp [validate_fee_tier, hf]
  · intro f hf
    simp only [List.mem_cons, List.not_mem_nil, or_false, not_or] at hf
    obtain ⟨h1, h2, h3, h4⟩ := hf
    simp [validate_fee_tier, h1, h2, h3, h4]
  · intro f hf
    simp only [List.mem_cons, List.not_mem_nil, or_false] at hf
    rcases hf with rfl | rfl | rfl | rfl <;> rfl

/-- Witness for C5 at concrete inputs. -/
theorem validate_fee_tier_spec_witness :
    validate_fee_tier none 1 = .ok 3000
    ∧ validate_fee_tier (some 400) 2 =
        .error (.invalidFeeTier (unsupportedFeeMsg 400 2))
    ∧ validate_fee_tier (some 999) 3 = .error (.invalidFeeTier (invalidFeeMsg 999 3))
    ∧ validate_fee_tier (some 500) 3 = .ok 500 :=
  ⟨validate_fee_tier_spec.1 1 (Or.inl rfl),
   validate_fee_tier_spec.2.2.1 2 400 (Or.inr rfl) (by decide),
   validate_fee_tier_spec.2.2.2.1 999 (by decide),
   validate_fee_tier_spec.2.2.2.2 500 (by decide)⟩

/-- C6 counterexample: the 0x-prefixed hex string "0x1234" has the wrong
length for an address, yet `_str_to_addr` does not fail: it returns the
2-byte value [0x12, 0x34]. -/
theorem str_to_addr_accepts_wrong_length :
    _str_to_addr (.str "0x1234") = .ok [18, 52] ∧ [18, 52].length ≠ 20 := by
  exact ⟨rfl, by decide⟩

/-- C6 amended: `_str_to_addr` rejects strings without the "0x" prefix
(`NameNotFound`) and 0x-strings whose tail is not valid hex (`ValueError`
from `bytes.fromhex`), but performs no length check: every 0x-prefixed
string with an even number of hex digits is accepted and its decoded bytes
returned, including wrong-length ones such as "0x1234". -/
theorem str_to_addr_behavior :
    (∀ s : String, s.data.take 2 ≠ ['0', 'x'] →
      _str_to_addr (.str s) = .error .nameNotFound)
    ∧ (∀ s : String, s.data.take 2 = ['0', 'x'] → hexBytes (s.data.drop 2) = none →
      _str_to_addr (.str s) = .error .valueError)
    ∧ (∀ (s : String) (bs : List ℕ), s.data.take 2 = ['0', 'x'] →
      hexBytes (s.data.drop 2) = some bs → _str_to_addr (.str s) = .ok bs)
    ∧ _str_to_addr (.str "0x1234") = .ok [18, 52] := by
  refine ⟨?_, ?_, ?_, rfl⟩
  · intro s h
    simp [_str_to_addr, h]
  · intro s h hx
    simp [_str_to_addr, h, hx]
  · intro s bs h hx
    simp [_str_to_addr, h, hx]

/-- Witness for C6 at concrete inputs. -/
theorem str_to_addr_behavior_witness :
    _str_to_addr (.str "dai") = .error .nameNotFound
    ∧ _str_to_addr (.str "0x123") = .error .valueError
    ∧ _str_to_addr (.str "0x00ff") = .ok [0, 255] :=
  ⟨str_to_addr_behavior.1 "dai" (by decide),
   str_to_addr_behavior.2.1 "0x123" (by decide) (by decide),
   str_to_addr_behavior.2.2.1 "0x00ff" [0, 255] (by decide) (by decide)⟩

/-- C7: the nonce assembled by `_get_tx_params` equals
`max(last_nonce, get_transaction_count(address))`, hence is at least both
the locally tracked nonce and the node-reported transaction count. -/
theorem tx_params_nonce_max (env : Client) (value : ℤ) (gas : Option ℤ)
    (p : TxParams) (h : (_get_tx_params env value gas).result = .ok p) :
    p.nonce = max env.lastNonce env.transactionCount
    ∧ env.lastNonce ≤ p.nonce ∧ env.transactionCount ≤ p.nonce := by
  unfold _get_tx_params at h
  simp only [result_bind, result_liftE, result_remote] at h
  cases haddr : _addr_to_str env.address with
  | error e => rw [haddr] at h; simp at h
  | ok s =>
    rw [haddr] at h
    have hp : p.nonce = max env.lastNonce env.transactionCount := by
      cases gas with
      | none => simp [result_pure] at h; rw [← h]
      | some g =>
        by_cases hg : g = 0 <;> simp [hg, result_pure] at h <;> rw [← h]
    exact ⟨hp, by rw [hp]; exact le_max_left _ _, by rw [hp]; exact le_max_right _ _⟩

/-- Witness for C7 at a concrete client. -/
theorem tx_params_nonce_max_witness :
    (TxParams.nonce ⟨"0x0000000000000000000000000000000000000000", 0, 0, none⟩)
      = max (baseClient 2).lastNonce (baseClient 2).transactionCount
    ∧ (baseClient 2).lastNonce ≤ 0 ∧ (baseClient 2).transactionCount ≤ 0 := by
  have h := tx_params_nonce_max (baseClient 2) 0 none
    ⟨"0x0000000000000000000000000000000000000000", 0, 0, none⟩ rfl
  exact ⟨h.1, h.2.1, h.2.2⟩

/-- C9: `nearest_tick` fails (assertion, modelled as `none`) for every tick
strictly outside the tier's valid range, rather than clamping it. -/
theorem nearest_tick_out_of_range_fails (fee mi ma tick : ℤ)
    (hmi : get_min_tick fee = some mi) (hma : get_max_tick fee = some ma)
    (h : tick < mi ∨ ma < tick) : nearest_tick tick fee = none := by
  unfold nearest_tick default_tick_range
  simp only [hmi, hma, Option.bind_eq_bind, Option.some_bind, Option.pure_def]
  have hcond : ¬ (mi ≤ tick ∧ tick ≤ ma) := by
    rcases h with h | h
    · exact fun hc => absurd hc.1 (not_le.mpr h)
    · exact fun hc => absurd hc.2 (not_le.mpr h)
  simp [hcond]

/-- Witness for C9 at a concrete out-of-range tick. -/
theorem nearest_tick_out_of_range_fails_witness :
    nearest_tick 1000000 500 = none :=
  nearest_tick_out_of_range_fails 500 (-887270) 887270 1000000 (by decide)
    (by decide) (Or.inr (by decide))

/-- C2 (failing input): on a version-3 client, `get_price_input` called with
`fee=None` does not raise `InvalidFeeTier` — it silently substitutes the
3000 tier (`validate_fee_tier` is never invoked) and issues the remote
quoter call, returning its answer.  The repository's own test
`test_fee_required_for_uniswap_v3` demands `InvalidFeeTier` here. -/
theorem get_price_input_v3_fee_none_defaults :
    (get_price_input (baseClient 3) ethAddrLike daiAddr 1 none none).result = .ok 100
    ∧ (get_price_input (baseClient 3) ethAddrLike daiAddr 1 none none).log =
        [.weth9Read, .quoteExactInputSingle wethAddr daiAddr 3000 1 0] := by
  constructor <;> rfl

/-- C10: `get_price_input` tests the native-coin sentinel by raw `==` with
the `ETH_ADDRESS` string while `get_price_output` compares through
`is_same_address`; on the raw 20-zero-byte address the former dispatches to
the token↔token branch (the quoter is called with the zero address as
`tokenIn`) while the latter dispatches to the native-coin branch (the quoter
is called with WETH as `tokenIn`). -/
theorem zero_address_dispatch_divergence :
    pyEq zeroBytesAddr ethAddrLike = false
    ∧ is_same_address zeroBytesAddr ethAddrLike = .ok true
    ∧ (get_price_input (baseClient 3) zeroBytesAddr daiAddr 7 (some 500) none).log =
        [.quoteExactInputSingle zeroBytesAddr daiAddr 500 7 0]
    ∧ (get_price_output (baseClient 3) zeroBytesAddr daiAddr 7 (some 500) none).log =
        [.weth9Read, .quoteExactOutputSingle wethAddr daiAddr 500 7 0] := by
  refine ⟨rfl, ?_, rfl, ?_⟩ <;> rfl

/-! Tick rounding lemmas for the `nearest_tick` claims. -/

theorem tick_spacing_pos {fee s : ℤ} (h : _tick_spacing fee = some s) : 0 < s := by
  unfold _tick_spacing at h
  split_ifs at h <;> (injection h with h'; omega)

/-- For a positive divisor the floor division/modulus in `pyRound` agree with
Euclidean division/modulus. -/
theorem pyRound_eq_ediv {a b : ℤ} (hb : 0 < b) :
    pyRound a b =
      (if 2 * (a % b) < b then a / b
       else if b < 2 * (a % b) then a / b + 1
       else if a / b % 2 = 0 then a / b else a / b + 1) := by
  unfold pyRound
  rw [Int.fdiv_eq_ediv _ hb.le, Int.fmod_eq_emod _ hb.le]

/-- `pyRound a b` is the floor quotient or one more; the latter only when the
remainder is positive. -/
theorem pyRound_cases {a b : ℤ} (hb : 0 < b) :
    pyRound a b = a / b ∨ (pyRound a b = a / b + 1 ∧ 0 < a % b) := by
  rw [pyRound_eq_ediv hb]
  split
  · left; rfl
  · rename_i h1
    split
    · rename_i h2
      right
      exact ⟨rfl, by omega⟩
    · split
      · left; rfl
      · right
        refine ⟨rfl, ?_⟩
        omega

theorem pyRound_mul_self {m b : ℤ} (hb : 0 < b) : pyRound (m * b) b = m := by
  rw [pyRound_eq_ediv hb, Int.mul_ediv_cancel _ hb.ne', Int.mul_emod_left]
  simp [hb]

theorem pyRound_ge {a b m : ℤ} (hb : 0 < b) (h : m * b ≤ a) : m ≤ pyRound a b := by
  have hq : m ≤ a / b := (Int.le_ediv_iff_mul_le hb).mpr h
  rcases pyRound_cases hb with hc | ⟨hc, _⟩ <;> rw [hc] <;> linarith

theorem pyRound_le {a b m : ℤ} (hb : 0 < b) (h : a ≤ m * b) : pyRound a b ≤ m := by
  have hq : a / b ≤ m := by
    have hdd := Int.ediv_le_ediv hb h
    rwa [Int.mul_ediv_cancel _ hb.ne'] at hdd
  rcases pyRound_cases hb with hc | ⟨hc, hr⟩
  · rw [hc]; exact hq
  · rw [hc]
    rcases lt_or_eq_of_le hq with hlt | heq
    · linarith
    · exfalso
      have hd := Int.ediv_add_emod a b
      rw [heq, mul_comm b m] at hd
      linarith

/-- Inside the valid range, `nearest_tick` returns the rounded multiple of
the spacing (the two boundary-adjustment branches are unreachable there). -/
theorem nearest_tick_in_range {fee s tick : ℤ} (hs : _tick_spacing fee = some s)
    (h1 : -(MIN_TICK.fdiv (-s)) * s ≤ tick) (h2 : tick ≤ MAX_TICK.fdiv s * s) :
    nearest_tick tick fee = some (pyRound tick s * s) := by
  have hpos := tick_spacing_pos hs
  have hge : -(MIN_TICK.fdiv (-s)) ≤ pyRound tick s := pyRound_ge hpos h1
  have hle : pyRound tick s ≤ MAX_TICK.fdiv s := pyRound_le hpos h2
  have hr1 : -(MIN_TICK.fdiv (-s)) * s ≤ pyRound tick s * s :=
    mul_le_mul_of_nonneg_right hge hpos.le
  have hr2 : pyRound tick s * s ≤ MAX_TICK.fdiv s * s :=
    mul_le_mul_of_nonneg_right hle hpos.le
  have hdtr : default_tick_range fee =
      some (-(MIN_TICK.fdiv (-s)) * s, MAX_TICK.fdiv s * s) := by
    unfold default_tick_range get_min_tick get_max_tick
    rw [hs]
    rfl
  unfold nearest_tick
  rw [hdtr]
  simp only [Option.bind_eq_bind, Option.some_bind]
  rw [if_pos ⟨h1, h2⟩, hs]
  simp only [Option.bind_eq_bind, Option.some_bind]
  rw [if_neg (not_lt.mpr hr1), if_neg (not_lt.mpr hr2)]
  rfl

/-- C8: for every supported fee tier and every tick inside the tier's valid
range, `nearest_tick` is idempotent, and a tick that is already a multiple
of the tier's spacing is returned unchanged. -/
theorem nearest_tick_idempotent (fee s mi ma tick : ℤ)
    (hs : _tick_spacing fee = some s) (hmi : get_min_tick fee = some mi)
    (hma : get_max_tick fee = some ma) (h1 : mi ≤ tick) (h2 : tick ≤ ma) :
    ((nearest_tick tick fee).bind fun r => nearest_tick r fee) =
      nearest_tick tick fee
    ∧ (∀ m : ℤ, tick = m * s → nearest_tick tick fee = some tick) := by
  have hpos := tick_spacing_pos hs
  have hmi' : mi = -(MIN_TICK.fdiv (-s)) * s := by
    rw [get_min_tick, hs] at hmi
    simpa using hmi.symm
  have hma' : ma = MAX_TICK.fdiv s * s := by
    rw [get_max_tick, hs] at hma
    simpa using hma.symm
  have hmain := nearest_tick_in_range hs (hmi' ▸ h1) (hma' ▸ h2)
  constructor
  · rw [hmain]
    have hge : -(MIN_TICK.fdiv (-s)) ≤ pyRound tick s :=
      pyRound_ge hpos (hmi' ▸ h1)
    have hle : pyRound tick s ≤ MAX_TICK.fdiv s := pyRound_le hpos (hma' ▸ h2)
    have hr1 : -(MIN_TICK.fdiv (-s)) * s ≤ pyRound tick s * s :=
      mul_le_mul_of_nonneg_right hge hpos.le
    have hr2 : pyRound tick s * s ≤ MAX_TICK.fdiv s * s :=
      mul_le_mul_of_nonneg_right hle hpos.le
    have hsecond := nearest_tick_in_range hs hr1 hr2
    rw [Option.some_bind, hsecond, pyRound_mul_self hpos]
  · intro m hm
    rw [hmain, hm, pyRound_mul_self hpos]

/-! Claim C3: v1 token→token exact-output trades. -/

theorem pyEq_refl (a : AddrLike) : pyEq a a = true := by
  cases a <;> simp [pyEq]

/-- The balance lookup succeeds (with some value) whenever the token address
renders. -/
theorem get_token_balance_ok (env : Client) (token : AddrLike) (s : String)
    (haddr : _addr_to_str token = .ok s) :
    ∃ n, (get_token_balance env token).result = .ok n := by
  unfold get_token_balance
  by_cases hseth : s = ETH_ADDRESS <;>
    simp [result_bind, result_liftE, result_ite, result_remote, haddr, hseth,
      get_eth_balance]

/-- The `@supports([2, 3])` guard on `_get_token_token_output_price` fires on
version 1. -/
theorem token_token_output_price_v1_guard (env : Client) (t0 t1 : AddrLike)
    (qty : ℤ) (fee : Option ℤ) (route : Option (List AddrLike))
    (hv : env.version = 1) :
    (_get_token_token_output_price env t0 t1 qty fee route).result =
      .error .unsupportedVersion := by
  unfold _get_token_token_output_price
  rw [hv]
  norm_num
  rfl

/-- C3 (amended): on version 1 a token→token exact-output trade always fails
with the generic version-unsupported error raised by the `supports([2, 3])`
guard on `_get_token_token_output_price` during the pre-trade cost quote —
before any reserve read, any constant-product arithmetic
(`_calculate_max_input_token` is never reached, so no division-by-zero or
negative-denominator error can occur) and before any balance comparison, so
it never raises `InsufficientBalance` either. -/
theorem token_token_output_v1_unsupported (env : Client)
    (input_token output_token : AddrLike) (qty : ℤ) (recipient : Option AddrLike)
    (fee : ℤ) (slippage : ℚ) (s : String) (hv : env.version = 1)
    (hin : pyEq input_token ethAddrLike = false)
    (hout : pyEq output_token ethAddrLike = false)
    (haddr : _addr_to_str input_token = .ok s) :
    (_token_to_token_swap_output env input_token output_token qty recipient fee
        slippage).result = .error .unsupportedVersion := by
  obtain ⟨n, hbal⟩ := get_token_balance_ok env input_token s haddr
  have hcost := token_token_output_price_v1_guard env input_token output_token qty
    (some fee) none hv
  unfold _token_to_token_swap_output
  simp [result_bind, result_ite, result_throwE, hin, hout, hbal, hcost]

/-- C3 counterexample: on a concrete version-1 client with a tiny pool the
trade fails with the version-unsupported error, not with
`InsufficientBalance` (and with no arithmetic error). -/
theorem token_token_output_v1_not_insufficient :
    (_token_to_token_swap_output tinyPoolClient daiAddr uniAddr 10 none 3000
        (1 / 100)).result = .error .unsupportedVersion
    ∧ Err.isInsufficientBalance .unsupportedVersion = false :=
  ⟨rfl, rfl⟩

/-- Witness for C3 on a second concrete client (version 1, default oracle). -/
theorem token_token_output_v1_unsupported_witness :
    (_token_to_token_swap_output (baseClient 1) daiAddr uniAddr 3 none 3000
        0).result = .error .unsupportedVersion :=
  token_token_output_v1_unsupported (baseClient 1) daiAddr uniAddr 3 none 3000 0
    "0x6b175474e89094c44da98b954eedeac495271d0f" rfl rfl rfl rfl

/-! Claim C4: make_trade on equal input and output tokens. -/

theorem append_ne_nil_left {α} {l1 l2 : List α} (h : l1 ≠ []) : l1 ++ l2 ≠ [] := by
  cases l1 <;> simp_all

theorem approval_threshold_le : max_approval_check_int ≤ max_approval_int := by
  unfold max_approval_int max_approval_check_int
  norm_num

theorem except_bind_ok {β} (a : α) (f : α → Except Err β) :
    (Except.ok a >>= f) = f a := rfl

/-- `_is_approved` under a valid token address: it returns the comparison of
the allowance with the threshold, and it always issues at least one network
call (the allowance read; on v1 also the exchange lookup). -/
theorem is_approved_spec (env : Client) (al : AddrLike → ℤ) (token : AddrLike)
    (s : String) (hv : env.version = 1 ∨ env.version = 2 ∨ env.version = 3)
    (haddr2 : _addr_to_str token = .ok s) :
    (_is_approved env al token).result =
      .ok (decide (al token ≥ max_approval_check_int))
    ∧ (_is_approved env al token).log ≠ [] := by
  have hval : _validate_address token = .ok () := by
    simp [_validate_address, haddr2, except_bind_ok]
  rcases hv with hv | hv | hv <;>
    simp [_is_approved, _exchange_address_from_token, hv, hval, result_bind,
      log_bind, result_liftE, log_liftE, result_remote, log_remote, result_pure,
      log_pure, result_ite, log_ite, result_throwE, log_throwE]

/-- `approve` succeeds whenever the token and wallet addresses render. -/
theorem approve_ok (env : Client) (token : AddrLike) (s s' : String)
    (haddr : _addr_to_str token = .ok s)
    (hself : _addr_to_str env.address = .ok s') :
    (approve env token).result = .ok () := by
  by_cases hv1 : env.version = 1 <;> by_cases heg : env.useEstimateGas <;>
    simp [approve, _exchange_address_from_token, _build_and_send_tx,
      _get_tx_params, hv1, heg, haddr, hself, result_bind, result_liftE,
      result_remote, result_pure, result_ite, result_throwE]

/-- The `check_approval` wrapper on two equal tokens: it always succeeds,
issues no network call when the token is the `ETH_ADDRESS` string, and
issues at least one (the allowance read) otherwise. -/
theorem check_two_same_spec (env : Client) (t : AddrLike) (s s' : String)
    (hv : env.version = 1 ∨ env.version = 2 ∨ env.version = 3)
    (haddr : _addr_to_str t = .ok s)
    (hself : _addr_to_str env.address = .ok s') :
    (check_approval_two env t t).result = .ok ()
    ∧ (pyEq t ethAddrLike = true → (check_approval_two env t t).log = [])
    ∧ (pyEq t ethAddrLike = false → (check_approval_two env t t).log ≠ []) := by
  by_cases ht : pyEq t ethAddrLike = true
  · refine ⟨?_, fun _ => ?_, fun hf => absurd ht (by simp [hf])⟩ <;>
      simp [check_approval_two, ht, result_bind, log_bind, result_pure, log_pure]
  · have ht' : pyEq t ethAddrLike = false := by
      revert ht
      cases pyEq t ethAddrLike <;> simp
    obtain ⟨hres1, hlog1⟩ :=
      is_approved_spec env env.allowanceOf t s hv haddr
    have hval : _validate_address t = .ok () := by
      simp [_validate_address, haddr, except_bind_ok]
    have hlogpart : (pyEq t ethAddrLike = false →
        (check_approval_two env t t).log ≠ []) := by
      intro _
      rcases hv with hv | hv | hv <;>
        simp [check_approval_two, _is_approved, _exchange_address_from_token,
          ht', hv, hval, result_bind, log_bind, result_liftE, log_liftE,
          result_remote, log_remote, result_pure, log_pure, result_ite, log_ite,
          result_throwE, log_throwE]
    by_cases hap : max_approval_check_int ≤ env.allowanceOf t
    · -- already approved: both checks read the allowance and move on
      obtain ⟨hres2, _⟩ := is_approved_spec env env.allowanceOf t s hv haddr
      refine ⟨?_, fun hf => absurd hf (by simp [ht']), hlogpart⟩
      simp [check_approval_two, ht', result_bind, result_pure, result_ite,
        hres1, hres2, ge_iff_le, hap]
    · -- not approved: the wrapper approves, and the second check sees the
      -- raised allowance
      have hap2 := approve_ok env t s s' haddr hself
      have hallow2 : (fun t' => if pyEq t' t then max_approval_int
          else env.allowanceOf t') t = max_approval_int := by
        simp [pyEq_refl]
      obtain ⟨hres2, _⟩ := is_approved_spec env
        (fun t' => if pyEq t' t then max_approval_int else env.allowanceOf t') t s
        hv haddr
      refine ⟨?_, fun hf => absurd hf (by simp [ht']), hlogpart⟩
      simp [check_approval_two, ht', result_bind, result_pure, result_ite,
        hres1, hres2, hap2, ge_iff_le, hap, hallow2, pyEq_refl,
        approval_threshold_le]

/-- C4 (amended): `make_trade` with equal input and output tokens always
fails with the generic `ValueError`, but the `check_approval` wrapper runs
first: when the token is the `ETH_ADDRESS` string sentinel no network call
precedes the failure, and for any other (valid) token at least one network
call — the ERC-20 allowance read, plus an approval transaction when the
allowance is below the threshold — is issued before the `ValueError` is
raised. -/
theorem make_trade_equal_tokens (env : Client) (t : AddrLike) (qty : ℤ)
    (recipient : Option AddrLike) (fee : Option ℤ) (slippage : Option ℚ)
    (fot : Bool) (s s' : String)
    (hv : env.version = 1 ∨ env.version = 2 ∨ env.version = 3)
    (haddr : _addr_to_str t = .ok s)
    (hself : _addr_to_str env.address = .ok s') :
    (make_trade env t t qty recipient fee slippage fot).result = .error .valueError
    ∧ (pyEq t ethAddrLike = true →
        (make_trade env t t qty recipient fee slippage fot).log = [])
    ∧ (pyEq t ethAddrLike = false →
        (make_trade env t t qty recipient fee slippage fot).log ≠ []) := by
  obtain ⟨hres, hleth, hlne⟩ := check_two_same_spec env t s s' hv haddr hself
  refine ⟨?_, ?_, ?_⟩
  · simp [make_trade, result_bind, hres, pyEq_refl, result_ite, result_throwE]
  · intro h
    simp [make_trade, log_bind, hres, hleth h, pyEq_refl, log_ite, log_throwE,
      result_ite, result_throwE, result_pure, log_pure]
  · intro h
    simp only [make_trade, log_bind]
    exact append_ne_nil_left (hlne h)

set_option maxRecDepth 8000 in
/-- C4 counterexample: on a version-2 client with an unapproved token, a
`make_trade` call with `tokenIn == tokenOut` still raises `ValueError`, but
only after network calls (allowance read, approval transaction, receipt
wait, second allowance read) have been issued — not zero as claimed. -/
theorem make_trade_equal_tokens_network_calls :
    (make_trade unapprovedClient daiAddr daiAddr 10 none none none false).result =
      .error .valueError
    ∧ (make_trade unapprovedClient daiAddr daiAddr 10 none none none false).log ≠
        [] := by
  exact ⟨rfl, by decide⟩

/-- Witness for C4 at concrete clients: the ETH-sentinel case issues no
calls, the DAI case fails with `ValueError` after at least one call. -/
theorem make_trade_equal_tokens_witness :
    (make_trade (baseClient 2) ethAddrLike ethAddrLike 5 none none none
        false).log = []
    ∧ (make_trade (baseClient 2) daiAddr daiAddr 5 none none none
        false).result = .error .valueError
    ∧ (make_trade (baseClient 2) daiAddr daiAddr 5 none none none false).log ≠
        [] :=
  ⟨(make_trade_equal_tokens (baseClient 2) ethAddrLike 5 none none none false
      "0x0000000000000000000000000000000000000000"
      "0x0000000000000000000000000000000000000000" (Or.inr (Or.inl rfl)) rfl
      rfl).2.1 rfl,
   (make_trade_equal_tokens (baseClient 2) daiAddr 5 none none none false
      "0x6b175474e89094c44da98b954eedeac495271d0f"
      "0x0000000000000000000000000000000000000000" (Or.inr (Or.inl rfl)) rfl
      rfl).1,
   (make_trade_equal_tokens (baseClient 2) daiAddr 5 none none none false
      "0x6b175474e89094c44da98b954eedeac495271d0f"
      "0x0000000000000000000000000000000000000000" (Or.inr (Or.inl rfl)) rfl
      rfl).2.2 rfl⟩

/-! Claim C1: slippage guards.  The library computes every guard as
`int((1 ± slippage) * quote)` — Python truncation of the (float) product,
which for the non-negative values at hand is the floor, never the ceiling. -/

theorem pythonInt_eq_floor {q : ℚ} (h : 0 ≤ q) : pythonInt q = ⌊q⌋ := by
  unfold pythonInt
  rw [if_pos h]

theorem pythonInt_intCast (n : ℤ) : pythonInt ((n : ℤ) : ℚ) = n := by
  unfold pythonInt
  split <;> simp

/-- `_get_tx_params` with no explicit gas: either the address fails to
render, or the assembled record. -/
theorem get_tx_params_result (env : Client) (v : ℤ) :
    (_get_tx_params env v none).result =
      match _addr_to_str env.address with
      | .error e => .error e
      | .ok s => .ok ⟨s, v, max env.lastNonce env.transactionCount, none⟩ := by
  cases h : _addr_to_str env.address <;>
    simp [_get_tx_params, h, result_bind, result_liftE, result_remote, result_pure]

/-- `_build_and_send_tx` on explicit parameters broadcasts exactly the given
call with the given value (only the gas field may be filled in). -/
theorem build_send_value (env : Client) (call : TxCall) (p : TxParams) :
    ((_build_and_send_tx env call (some p)).result.map fun r => r.2.value) =
      .ok p.value := by
  cases hg : p.gas <;> by_cases heg : env.useEstimateGas <;>
    simp [_build_and_send_tx, hg, heg, result_bind, result_remote, result_pure,
      result_ite, Except.map]

/-- `_build_and_send_tx` on explicit parameters broadcasts exactly the given
call (stated for an arbitrary projection of the call). -/
theorem build_send_proj (env : Client) (call : TxCall) (p : TxParams)
    (f : TxCall → Option ℤ) :
    ((_build_and_send_tx env call (some p)).result.map fun r => f r.1) =
      .ok (f call) := by
  cases hg : p.gas <;> by_cases heg : env.useEstimateGas <;>
    simp [_build_and_send_tx, hg, heg, result_bind, result_remote, result_pure,
      result_ite, Except.map]

/-- `_build_and_send_tx` with default parameters broadcasts exactly the given
call, provided the wallet address renders. -/
theorem build_send_none_proj (env : Client) (call : TxCall) (s' : String)
    (haddr : _addr_to_str env.address = .ok s') (f : TxCall → Option ℤ) :
    ((_build_and_send_tx env call none).result.map fun r => f r.1) =
      .ok (f call) := by
  by_cases heg : env.useEstimateGas <;>
    simp [_build_and_send_tx, get_tx_params_result, haddr, heg, result_bind,
      result_remote, result_pure, result_ite, Except.map]

/-- Guard evaluation for `_eth_to_token_swap_output` (versions 2 and 3): the
transaction value sent along with the swap is `int((1+slippage) * cost)`
where `cost` is the quoted price. -/
theorem eval_eth_to_token_output (env : Client) (t : AddrLike) (qty : ℤ)
    (rec : Option AddrLike) (fee : ℤ) (s : ℚ) (C : ℤ) (s' : String)
    (hv : env.version = 2 ∨ env.version = 3)
    (h1 : pyEq t ethAddrLike = false)
    (hC : (_get_eth_token_output_price env t qty (some fee)).result = .ok C)
    (h2 : ¬ pythonInt ((1 + s) * (C : ℚ)) > env.ethBalanceOf env.address)
    (haddr : _addr_to_str env.address = .ok s') :
    ((_eth_to_token_swap_output env t qty rec fee s).result.map
      fun r => r.2.value) = .ok (pythonInt ((1 + s) * (C : ℚ))) := by
  rcases hv with hv | hv
  all_goals
    simp [_eth_to_token_swap_output, hv, h1, hC, h2, haddr, get_eth_balance,
      get_weth_address, get_tx_params_result, result_bind, result_ite,
      result_remote, result_liftE, result_throwE, result_pure, Except.map]
    exact build_send_value env _ _

/-- Guard evaluation for `_token_to_eth_swap_output` (versions 2 and 3): the
`max_tokens`/`amountInMaximum` guard is `int((1+slippage) * cost)`. -/
theorem eval_token_to_eth_output (env : Client) (t : AddrLike) (qty : ℤ)
    (rec : Option AddrLike) (fee : ℤ) (s : ℚ) (B C : ℤ) (s' : String)
    (hv : env.version = 2 ∨ env.version = 3)
    (h1 : pyEq t ethAddrLike = false)
    (hbal : (get_token_balance env t).result = .ok B)
    (hC : (_get_token_eth_output_price env t qty (some fee)).result = .ok C)
    (h2 : ¬ pythonInt ((1 + s) * (C : ℚ)) > B)
    (haddr : _addr_to_str env.address = .ok s') :
    ((_token_to_eth_swap_output env t qty rec fee s).result.map
      fun r => maxInOf r.1) = .ok (some (pythonInt ((1 + s) * (C : ℚ)))) := by
  rcases hv with hv | hv
  all_goals
    simp [_token_to_eth_swap_output, hv, h1, hbal, hC, h2, haddr,
      get_weth_address, get_tx_params_result, result_bind, result_ite,
      result_remote, result_liftE, result_throwE, result_pure, Except.map]
    first
    | exact build_send_none_proj env _ s' haddr _
    | exact build_send_proj env _ _ _

/-- Guard evaluation for `_token_to_token_swap_output` (versions 2 and 3):
the `amount_in_max`/`amountInMaximum` guard is `int((1+slippage) * cost)`. -/
theorem eval_token_to_token_output (env : Client) (t0 t1 : AddrLike) (qty : ℤ)
    (rec : Option AddrLike) (fee : ℤ) (s : ℚ) (B C : ℤ) (s' : String)
    (hv : env.version = 2 ∨ env.version = 3)
    (h1 : pyEq t0 ethAddrLike = false)
    (h1' : pyEq t1 ethAddrLike = false)
    (hbal : (get_token_balance env t0).result = .ok B)
    (hC : (_get_token_token_output_price env t0 t1 qty (some fee) none).result =
      .ok C)
    (h2 : ¬ pythonInt ((1 + s) * (C : ℚ)) > B)
    (haddr : _addr_to_str env.address = .ok s') :
    ((_token_to_token_swap_output env t0 t1 qty rec fee s).result.map
      fun r => maxInOf r.1) = .ok (some (pythonInt ((1 + s) * (C : ℚ)))) := by
  rcases hv with hv | hv
  all_goals
    simp [_token_to_token_swap_output, hv, h1, h1', hbal, hC, h2, haddr,
      get_weth_address, get_tx_params_result, result_bind, result_ite,
      result_remote, result_liftE, result_throwE, result_pure, Except.map]
    first
    | exact build_send_none_proj env _ s' haddr _
    | exact build_send_proj env _ _ _

/-- Guard evaluation for `_eth_to_token_swap_input` (versions 2 and 3): the
`amount_out_min`/`amountOutMinimum` guard is `int((1-slippage) * quote)`. -/
theorem eval_eth_to_token_input (env : Client) (t : AddrLike) (qty : ℤ)
    (rec : Option AddrLike) (fee : ℤ) (s : ℚ) (Q : ℤ) (s' : String)
    (hv : env.version = 2 ∨ env.version = 3)
    (h1 : pyEq t ethAddrLike = false)
    (hqty : ¬ qty > env.ethBalanceOf env.address)
    (hQ : (_get_eth_token_input_price env t qty fee).result = .ok Q)
    (haddr : _addr_to_str env.address = .ok s') :
    ((_eth_to_token_swap_input env t qty rec fee s false).result.map
      fun r => minOutOf r.1) = .ok (some (pythonInt ((1 - s) * (Q : ℚ)))) := by
  rcases hv with hv | hv
  all_goals
    simp [_eth_to_token_swap_input, hv, h1, hqty, hQ, haddr, get_eth_balance,
      get_weth_address, get_tx_params_result, result_bind, result_ite,
      result_remote, result_liftE, result_throwE, result_pure, Except.map]
    first
    | exact build_send_none_proj env _ s' haddr _
    | exact build_send_proj env _ _ _

/-- Guard evaluation for `_token_to_eth_swap_input` (versions 2 and 3). -/
theorem eval_token_to_eth_input (env : Client) (t : AddrLike) (qty : ℤ)
    (rec : Option AddrLike) (fee : ℤ) (s : ℚ) (B Q : ℤ) (s' : String)
    (hv : env.version = 2 ∨ env.version = 3)
    (h1 : pyEq t ethAddrLike = false)
    (hbal : (get_token_balance env t).result = .ok B)
    (hqty : ¬ qty > B)
    (hQ : (_get_token_eth_input_price env t qty fee).result = .ok Q)
    (haddr : _addr_to_str env.address = .ok s') :
    ((_token_to_eth_swap_input env t qty rec fee s false).result.map
      fun r => minOutOf r.1) = .ok (some (pythonInt ((1 - s) * (Q : ℚ)))) := by
  rcases hv with hv | hv
  all_goals
    simp [_token_to_eth_swap_input, hv, h1, hbal, hqty, hQ, haddr,
      get_weth_address, get_tx_params_result, result_bind, result_ite,
      result_remote, result_liftE, result_throwE, result_pure, Except.map]
    first
    | exact build_send_none_proj env _ s' haddr _
    | exact build_send_proj env _ _ _

/-- Guard evaluation for `_token_to_token_swap_input` (versions 2 and 3). -/
theorem eval_token_to_token_input (env : Client) (t0 t1 : AddrLike) (qty : ℤ)
    (rec : Option AddrLike) (fee : ℤ) (s : ℚ) (B Q : ℤ) (s' : String)
    (hv : env.version = 2 ∨ env.version = 3)
    (h1 : pyEq t0 ethAddrLike = false)
    (h1' : pyEq t1 ethAddrLike = false)
    (hbal : (get_token_balance env t0).result = .ok B)
    (hqty : ¬ qty > B)
    (hQ : (_get_token_token_input_price env t0 t1 qty fee none).result = .ok Q)
    (haddr : _addr_to_str env.address = .ok s') :
    ((_token_to_token_swap_input env t0 t1 qty rec fee s false).result.map
      fun r => minOutOf r.1) = .ok (some (pythonInt ((1 - s) * (Q : ℚ)))) := by
  rcases hv with hv | hv
  all_goals
    simp [_token_to_token_swap_input, hv, h1, h1', hbal, hqty, hQ, haddr,
      get_weth_address, get_tx_params_result, result_bind, result_ite,
      result_remote, result_liftE, result_throwE, result_pure, Except.map]
    first
    | exact build_send_none_proj env _ s' haddr _
    | exact build_send_proj env _ _ _

/-- C1 (amended): on versions 2 and 3, every exact-output swap passes
`int((1 + slippage) * quotedCost)` — Python truncation, i.e. the FLOOR of
the product for the non-negative values involved, not the ceiling — as its
`amountInMaximum`/`max_tokens`/`eth_qty` guard, and every exact-input swap
passes `int((1 - slippage) * quotedOut)` = floor as its `amountOutMinimum`
guard.  (`pythonInt q = ⌊q⌋` for `0 ≤ q` is the first conjunct; on version 1
the guards are not derived from the quoted price at all: input swaps pass a
constant minimum of 1 or reserve-derived bounds and the ETH→token
exact-output value is the raw re-quoted cost.) -/
theorem slippage_guard_spec :
    (∀ q : ℚ, 0 ≤ q → pythonInt q = ⌊q⌋)
    ∧ (∀ (env : Client) (t : AddrLike) (qty : ℤ) (rec : Option AddrLike)
        (fee : ℤ) (s : ℚ) (C : ℤ) (s' : String),
        env.version = 2 ∨ env.version = 3 → pyEq t ethAddrLike = false →
        (_get_eth_token_output_price env t qty (some fee)).result = .ok C →
        ¬ pythonInt ((1 + s) * (C : ℚ)) > env.ethBalanceOf env.address →
        _addr_to_str env.address = .ok s' →
        ((_eth_to_token_swap_output env t qty rec fee s).result.map
          fun r => r.2.value) = .ok (pythonInt ((1 + s) * (C : ℚ))))
    ∧ (∀ (env : Client) (t : AddrLike) (qty : ℤ) (rec : Option AddrLike)
        (fee : ℤ) (s : ℚ) (B C : ℤ) (s' : String),
        env.version = 2 ∨ env.version = 3 → pyEq t ethAddrLike = false →
        (get_token_balance env t).result = .ok B →
        (_get_token_eth_output_price env t qty (some fee)).result = .ok C →
        ¬ pythonInt ((1 + s) * (C : ℚ)) > B →
        _addr_to_str env.address = .ok s' →
        ((_token_to_eth_swap_output env t qty rec fee s).result.map
          fun r => maxInOf r.1) = .ok (some (pythonInt ((1 + s) * (C : ℚ)))))
    ∧ (∀ (env : Client) (t0 t1 : AddrLike) (qty : ℤ) (rec : Option AddrLike)
        (fee : ℤ) (s : ℚ) (B C : ℤ) (s' : String),
        env.version = 2 ∨ env.version = 3 → pyEq t0 ethAddrLike = false →
        pyEq t1 ethAddrLike = false →
        (get_token_balance env t0).result = .ok B →
        (_get_token_token_output_price env t0 t1 qty (some fee) none).result =
          .ok C →
        ¬ pythonInt ((1 + s) * (C : ℚ)) > B →
        _addr_to_str env.address = .ok s' →
        ((_token_to_token_swap_output env t0 t1 qty rec fee s).result.map
          fun r => maxInOf r.1) = .ok (some (pythonInt ((1 + s) * (C : ℚ)))))
    ∧ (∀ (env : Client) (t : AddrLike) (qty : ℤ) (rec : Option AddrLike)
        (fee : ℤ) (s : ℚ) (Q : ℤ) (s' : String),
        env.version = 2 ∨ env.version = 3 → pyEq t ethAddrLike = false →
        ¬ qty > env.ethBalanceOf env.address →
        (_get_eth_token_input_price env t qty fee).result = .ok Q →
        _addr_to_str env.address = .ok s' →
        ((_eth_to_token_swap_input env t qty rec fee s false).result.map
          fun r => minOutOf r.1) = .ok (some (pythonInt ((1 - s) * (Q : ℚ)))))
    ∧ (∀ (env : Client) (t : AddrLike) (qty : ℤ) (rec : Option AddrLike)
        (fee : ℤ) (s : ℚ) (B Q : ℤ) (s' : String),
        env.version = 2 ∨ env.version = 3 → pyEq t ethAddrLike = false →
        (get_token_balance env t).result = .ok B → ¬ qty > B →
        (_get_token_eth_input_price env t qty fee).result = .ok Q →
        _addr_to_str env.address = .ok s' →
        ((_token_to_eth_swap_input env t qty rec fee s false).result.map
          fun r => minOutOf r.1) = .ok (some (pythonInt ((1 - s) * (Q : ℚ)))))
    ∧ (∀ (env : Client) (t0 t1 : AddrLike) (qty : ℤ) (rec : Option AddrLike)
        (fee : ℤ) (s : ℚ) (B Q : ℤ) (s' : String),
        env.version = 2 ∨ env.version = 3 → pyEq t0 ethAddrLike = false →
        pyEq t1 ethAddrLike = false →
        (get_token_balance env t0).result = .ok B → ¬ qty > B →
        (_get_token_token_input_price env t0 t1 qty fee none).result = .ok Q →
        _addr_to_str env.address = .ok s' →
        ((_token_to_token_swap_input env t0 t1 qty rec fee s false).result.map
          fun r => minOutOf r.1) = .ok (some (pythonInt ((1 - s) * (Q : ℚ))))) :=
  ⟨fun _ h => pythonInt_eq_floor h, eval_eth_to_token_output,
   eval_token_to_eth_output, eval_token_to_token_output, eval_eth_to_token_input,
   eval_token_to_eth_input, eval_token_to_token_input⟩

/-- Witness for C1 at a concrete version-2 client with zero slippage: an
exact-output guard, an exact-input guard, and the floor clause. -/
theorem slippage_guard_spec_witness :
    ((_eth_to_token_swap_output (baseClient 2) daiAddr 3 none 3000 0).result.map
      fun r => r.2.value) = .ok (pythonInt ((1 + 0) * ((5 : ℤ) : ℚ)))
    ∧ ((_token_to_eth_swap_input (baseClient 2) daiAddr 3 none 3000 0
        false).result.map fun r => minOutOf r.1) =
      .ok (some (pythonInt ((1 - 0) * ((100 : ℤ) : ℚ))))
    ∧ pythonInt (3 : ℚ) = ⌊(3 : ℚ)⌋ :=
  ⟨slippage_guard_spec.2.1 (baseClient 2) daiAddr 3 none 3000 0 5
      "0x0000000000000000000000000000000000000000" (Or.inl rfl) rfl rfl
      (by simp [pythonInt, baseClient]) rfl,
   slippage_guard_spec.2.2.2.2.2.1 (baseClient 2) daiAddr 3 none 3000 0
      1000000000 100 "0x0000000000000000000000000000000000000000" (Or.inl rfl)
      rfl rfl (by simp [baseClient]) rfl rfl,
   slippage_guard_spec.1 3 (by norm_num)⟩

/-- C1 counterexample: with slippage 1/2 and quoted cost 5 the exact-output
guard actually broadcast is `int(1.5 * 5) = 7` — the truncation/floor — while
the claimed `ceil((1 + slippage) * cost)` is 8. -/
theorem exact_output_guard_truncates_not_ceil :
    ((_eth_to_token_swap_output (baseClient 2) daiAddr 3 none 3000
        (1 / 2)).result.map fun r => r.2.value) = .ok 7
    ∧ (_get_eth_token_output_price (baseClient 2) daiAddr 3 (some 3000)).result =
        .ok 5
    ∧ ⌈(1 + (1 / 2 : ℚ)) * ((5 : ℤ) : ℚ)⌉ = 8
    ∧ (7 : ℤ) ≠ 8 := by
  refine ⟨?_, rfl, ?_, by decide⟩
  · have h := eval_eth_to_token_output (baseClient 2) daiAddr 3 none 3000 (1 / 2)
      5 "0x0000000000000000000000000000000000000000" (Or.inl rfl) rfl rfl
      (by norm_num [pythonInt, baseClient]) rfl
    rw [h]
    norm_num [pythonInt]
  · norm_num [Int.ceil_eq_iff]
theorem nearest_tick_idempotent_witness :
    ((nearest_tick 127 3000).bind fun r => nearest_tick r 3000) =
      nearest_tick 127 3000
    ∧ nearest_tick 120 3000 = some 120 :=
  ⟨(nearest_tick_idempotent 3000 60 (-887220) 887220 127 (by decide) (by decide)
      (by decide) (by decide) (by decide)).1,
   (nearest_tick_idempotent 3000 60 (-887220) 887220 120 (by decide) (by decide)
      (by decide) (by decide) (by decide)).2 2 (by decide)⟩

end Uniswap
